import Mathlib

/-!
Verification development for the conversational voice/text gateway
(node backend: websocket.service.js, firebase.service.js, auth middleware,
speech controller, conversation controller).

The JavaScript source is shallowly embedded as pure Lean functions.
External collaborators (token verifier, document store availability,
STT engine, the flask query endpoint, TTS engine) are oracles carried
in an environment record; firestore documents are modelled as association
lists; JS exceptions are modelled with Except; JS `undefined` string
fields are modelled with Option String; JS string truthiness (empty
string is falsy) is modelled explicitly.
-/

namespace Gateway

/-- Result of the identity provider decoding a bearer token
(decodedToken.uid, decodedToken.role). -/
structure User where
  uid : String
  role : String
deriving DecidableEq, Repr

/-- External collaborators, as oracles.  `dbOk` models availability of the
document store backend; `verify` models verifyIdToken (the wrapper
verifyToken in middleware/auth.js returns null instead of throwing, which
is modelled by the Option result); `stt` models speechClient.recognize
returning the joined transcription; `flask` models the axios POST to the
query endpoint returning response.data.response; `tts` models
ttsClient.synthesizeSpeech returning the base64 audio. -/
structure Env where
  requireAuth : Bool
  dbOk : Bool
  verify : String → Option User
  stt : List Nat → Except String String
  flask : String → String → Except String String
  tts : String → Except String String

/-- A persisted timestamp value.  startConversation writes
new Date().toISOString() (a full instant, modelled as milliseconds);
storeMessage in websocket.service.js writes new Date().toDateString()
(calendar-day resolution only, modelled as the day index). -/
inductive TimeVal
  | iso (ms : Nat)
  | dayOnly (day : Nat)
deriving DecidableEq, Repr

/-- Milliseconds per calendar day. -/
def msPerDay : Nat := 86400000

/-- The instant a stored timestamp denotes: a day-only value denotes the
midnight starting that day. -/
def TimeVal.asMs : TimeVal → Nat
  | .iso ms => ms
  | .dayOnly d => d * msPerDay

/-- A chatSessions document: userId, title, createdAt, lastUpdated. -/
structure SessionDoc where
  userId : String
  title : String
  createdAt : TimeVal
  lastUpdated : TimeVal
deriving DecidableEq, Repr

/-- A messages sub-collection document.  `text` is Option String because
the voice path can store result.transcription when it is undefined. -/
structure MessageDoc where
  messageId : Nat
  role : String
  text : Option String
  timestamp : TimeVal
  sourceType : String
deriving DecidableEq, Repr

/-- The firestore state: chatSessions documents, their messages
(tagged by chatId, in append order), the processedTextLogs collection,
and the counter producing server-assigned document ids. -/
structure Store where
  sessions : List (String × SessionDoc)
  messages : List (String × MessageDoc)
  logs : List (String × String)
  nextId : Nat
deriving DecidableEq, Repr

/-- The messages persisted under one session, in append order. -/
def listMessages (st : Store) (chatId : String) : List MessageDoc :=
  (st.messages.filter (fun p => p.1 == chatId)).map (fun p => p.2)

/-- Firestore document fetch in the chatSessions collection. -/
def findSession : List (String × SessionDoc) → String → Option SessionDoc
  | [], _ => none
  | (k, v) :: rest, cid => if k = cid then some v else findSession rest cid

/-- Update one session document in place. -/
def updateSession (l : List (String × SessionDoc)) (chatId : String)
    (f : SessionDoc → SessionDoc) : List (String × SessionDoc) :=
  l.map (fun p => if p.1 = chatId then (p.1, f p.2) else p)

/-- storeMessage from websocket.service.js: takes a single
new Date().toDateString() timestamp, updates the session lastUpdated
(firestore update throws NOT_FOUND when the document is missing), then
writes the message with a fresh server-assigned id.  The userId argument
is accepted but never used for an ownership check, exactly as in the
source. -/
def storeMessage (env : Env) (st : Store) (chatId : String) (role : String)
    (text : Option String) (userId : String) (sourceType : String) (now : Nat) :
    Except String (Store × Nat) :=
  if env.dbOk then
    match findSession st.sessions chatId with
    | none => .error "NOT_FOUND: no document to update"
    | some _ =>
      let ts := TimeVal.dayOnly (now / msPerDay)
      let mid := st.nextId
      .ok ({ st with
              sessions := updateSession st.sessions chatId
                (fun s => { s with lastUpdated := ts }),
              messages := st.messages ++
                [(chatId, { messageId := mid, role := role, text := text,
                            timestamp := ts, sourceType := sourceType })],
              nextId := st.nextId + 1 }, mid)
  else .error "backend unavailable"

/-- storeProcessedTextLog from firebase.service.js: appends to the
processedTextLogs collection. -/
def storeProcessedTextLog (env : Env) (st : Store) (text : String)
    (userId : String) : Except String Store :=
  if env.dbOk then .ok { st with logs := st.logs ++ [(text, userId)] }
  else .error "backend unavailable"

/-- JS s.toLowerCase(), character by character (the inputs at stake are
ASCII, where this coincides with the JS behaviour). -/
def jsToLower (s : String) : String :=
  ⟨s.data.map Char.toLower⟩

/-- JS s.split(sep) for a one-character separator: split at every
occurrence. -/
def jsSplitAux (sep : Char) : List Char → List Char → List String
  | [], acc => [⟨acc.reverse⟩]
  | c :: rest, acc =>
    if c = sep then ⟨acc.reverse⟩ :: jsSplitAux sep rest []
    else jsSplitAux sep rest (c :: acc)

/-- JS s.split(sep) for a one-character separator. -/
def jsSplit (s : String) (sep : Char) : List String :=
  jsSplitAux sep s.data []

/-- JS s.startsWith(pat). -/
def strStartsWith (s pat : String) : Bool :=
  pat.data.isPrefixOf s.data

/-- determineIntent needs substring containment (JS String.includes). -/
def charListContains (pat : List Char) : List Char → Bool
  | [] => pat.isEmpty
  | c :: rest => pat.isPrefixOf (c :: rest) || charListContains pat rest

/-- JS s.includes(pat). -/
def strContains (s pat : String) : Bool :=
  charListContains pat.toList s.toList

/-- determineIntent from firebase.service.js: first matching rule wins. -/
def determineIntent (queryText : String) : String :=
  if strContains queryText "weather" then "WEATHER_QUERY"
  else if strContains queryText "time" then "TIME_QUERY"
  else if strContains queryText "account" || strContains queryText "profile" then
    "ACCOUNT_QUERY"
  else if strContains queryText "help" then "HELP_REQUEST"
  else "UNKNOWN"

/-- Classification metadata returned by the query resolver. -/
structure Metadata where
  intent : String
  confidence : ℚ
deriving DecidableEq, Repr

/-- The resolver result used by callers: textResponse.data.response
(the answer string) and the metadata object. -/
structure QueryResult where
  answer : String
  metadata : Metadata
deriving DecidableEq, Repr

/-- queryContextualData from firebase.service.js.  It lowercases the
query; on a non-empty normalized query it posts to the flask endpoint
(an axios failure propagates as a thrown error) and pairs the answer
with metadata; on an empty query the source returns undefined, which
makes every caller immediately throw a TypeError on
queryResponse.textResponse, modelled here by the error result. -/
def queryContextualData (env : Env) (queryText : String) (userId : String) :
    Except String QueryResult :=
  if jsToLower queryText ≠ "" then
    match env.flask userId (jsToLower queryText) with
    | .error e => .error e
    | .ok answer =>
      .ok { answer := answer,
            metadata := { intent := determineIntent (jsToLower queryText),
                          confidence := 0.85 } }
  else .error "TypeError: cannot read properties of undefined"

/-- processSpeechStream result object (speech.controller.js).  On an empty
transcription only success and type are present; the other fields are
undefined, modelled as none. -/
structure SpeechResult where
  success : Bool
  transcription : Option String
  textResponse : Option String
  audioContent : Option String
  metadata : Option Metadata
deriving DecidableEq, Repr

/-- processSpeechStream from speech.controller.js.  Returns the store
(writes committed before a throw persist) together with either the thrown
error or the result object.  The STT call may throw; a non-empty
transcription is logged, resolved, synthesized; an empty transcription
yields the success:false object without any store write. -/
def processSpeechStream (env : Env) (st : Store) (raw : List Nat)
    (userId : String) : Store × Except String SpeechResult :=
  match env.stt raw with
  | .error e => (st, .error e)
  | .ok transcription =>
    if transcription = "" then
      (st, .ok { success := false, transcription := none, textResponse := none,
                 audioContent := none, metadata := none })
    else
      match storeProcessedTextLog env st transcription userId with
      | .error e => (st, .error e)
      | .ok st1 =>
        match queryContextualData env transcription userId with
        | .error e => (st1, .error e)
        | .ok qr =>
          match env.tts qr.answer with
          | .error e => (st1, .error e)
          | .ok b64 =>
            (st1, .ok { success := true, transcription := some transcription,
                        textResponse := some qr.answer, audioContent := some b64,
                        metadata := some qr.metadata })

/-- The speech_response reply frame.  The reason field never occurs in the
source; it is carried so that specified reply shapes can be stated. -/
structure SpeechResponse where
  success : Bool
  transcription : Option String
  textResponse : Option String
  metadata : Option Metadata
  reason : Option String
deriving DecidableEq, Repr

/-- Frames the gateway sends on a connection. -/
inductive OutMsg
  | errF (error : String)
  | authSuccess (userId : String)
  | authError (error : String)
  | speechResponse (r : SpeechResponse)
  | audioContent (b64 : String)
  | plainFail (error : String)
deriving DecidableEq, Repr

/-- Per-connection mutable state of the message handler closure. -/
structure Conn where
  userId : String
  authenticated : Bool
  currentChatId : Option String
deriving DecidableEq, Repr

/-- A parsed inbound control object, discriminated on its type field.
Optional fields record JS undefined; clear_context and every other
unrecognised type fall under other. -/
inductive ControlMsg
  | auth (token : Option String)
  | userInfo (userId : Option String)
  | startStream
  | endStream
  | setChatId (chatId : Option String)
  | textMessage (text : Option String)
  | other (ty : String)
deriving DecidableEq, Repr

/-- An inbound frame as the demultiplexer sees it: whether it arrived as a
string frame, whether its byte rendering starts with a left brace, the
outcome of JSON.parse when attempted (none models a parse throw), and the
raw bytes that reach the speech pipeline when the frame falls through to
the binary-audio path. -/
structure InMsg where
  isString : Bool
  startsLbrace : Bool
  parsed : Option ControlMsg
  raw : List Nat
deriving DecidableEq, Repr

/-- JS truthiness of an optional string field: undefined and the empty
string are falsy. -/
def truthyOpt : Option String → Bool
  | none => false
  | some s => s ≠ ""

/-- The binary-audio path of the message handler (websocket.service.js
lines 169 onward): the REQUIRE_AUTH guard, the active-chat guard, the call
to processSpeechStream, the two storeMessage calls on its object result,
the speech_response frame assembled from the result minus audioContent,
and the audio_content frame when audioContent is truthy.  A thrown error
reaches the outer catch, which sends the success:false error frame. -/
def audioPath (env : Env) (now : Nat) (conn : Conn) (st : Store)
    (raw : List Nat) : Store × List OutMsg :=
  if !conn.authenticated && env.requireAuth then
    (st, [.errF "Authentication required"])
  else
    match conn.currentChatId with
    | none => (st, [.errF "No active chat session"])
    | some chatId =>
      if chatId = "" then (st, [.errF "No active chat session"])
      else
        match processSpeechStream env st raw conn.userId with
        | (st1, .error e) => (st1, [.plainFail e])
        | (st1, .ok result) =>
          match storeMessage env st1 chatId "user" result.transcription
              conn.userId "voice" now with
          | .error e => (st1, [.plainFail e])
          | .ok (st2, _) =>
            match storeMessage env st2 chatId "assistant" result.textResponse
                conn.userId "text" now with
            | .error e => (st2, [.plainFail e])
            | .ok (st3, _) =>
              let base := [OutMsg.speechResponse
                { success := result.success,
                  transcription := result.transcription,
                  textResponse := result.textResponse,
                  metadata := result.metadata, reason := none }]
              match result.audioContent with
              | some b64 =>
                if b64 ≠ "" then (st3, base ++ [.audioContent b64])
                else (st3, base)
              | none => (st3, base)

/-- The text_message turn (websocket.service.js lines 118 to 157): the
active-chat guard, persist of the user message, the resolver call, speech
synthesis (generateSpeechAudio rethrows), persist of the assistant
message, then the speech_response and audio_content frames.  The branch
sits inside the inner try whose catch is at line 158, so a throw from any
of its awaits is returned as the error component, keeping the store
writes already committed; the caller models the inner catch. -/
def textTurn (env : Env) (now : Nat) (conn : Conn) (st : Store) (t : String) :
    Store × Except String (List OutMsg) :=
  match conn.currentChatId with
  | none => (st, .ok [.errF "No active chat session"])
  | some chatId =>
    if chatId = "" then (st, .ok [.errF "No active chat session"])
    else
      match storeMessage env st chatId "user" (some t) conn.userId "text" now with
      | .error e => (st, .error e)
      | .ok (st1, _) =>
        match queryContextualData env t conn.userId with
        | .error e => (st1, .error e)
        | .ok qr =>
          match env.tts qr.answer with
          | .error e => (st1, .error e)
          | .ok b64 =>
            match storeMessage env st1 chatId "assistant" (some qr.answer)
                conn.userId "text" now with
            | .error e => (st1, .error e)
            | .ok (st2, _) =>
              (st2,
                .ok [.speechResponse
                       { success := true, transcription := some t,
                         textResponse := some qr.answer,
                         metadata := some qr.metadata, reason := none },
                     .audioContent b64])

/-- Dispatch of a parsed control object (websocket.service.js lines 83 to
157), inside the inner try whose catch (parseError) is at line 158.
Branches that return in the source return here; branches without a return
(auth with a token that fails verification, auth without a token,
text_message without text, and every unrecognised type) fall through to
the binary-audio path on the raw bytes of the same frame.  A throw from
the text_message pipeline is intercepted by the line-158 catch: a string
frame is answered Invalid JSON message format and a buffer frame falls
through to the binary-audio path, with the stores already written kept.
The auth_error send is inside a catch whose try only calls verifyToken,
which never throws, so it is dead code. -/
def handleControl (env : Env) (now : Nat) (conn : Conn) (st : Store)
    (c : ControlMsg) (isStr : Bool) (raw : List Nat) :
    Conn × Store × List OutMsg :=
  match c with
  | .auth token =>
    if truthyOpt token then
      match env.verify (token.getD "") with
      | some u =>
        ({ conn with userId := u.uid, authenticated := true }, st,
          [.authSuccess u.uid])
      | none =>
        let r := audioPath env now conn st raw
        (conn, r.1, r.2)
    else
      let r := audioPath env now conn st raw
      (conn, r.1, r.2)
  | .userInfo uid =>
    ({ conn with userId := if truthyOpt uid then uid.getD "" else conn.userId },
      st, [])
  | .startStream => (conn, st, [])
  | .endStream => (conn, st, [])
  | .setChatId chatId => ({ conn with currentChatId := chatId }, st, [])
  | .textMessage text =>
    match text with
    | some t =>
      if t ≠ "" then
        match textTurn env now conn st t with
        | (st1, .ok outs) => (conn, st1, outs)
        | (st1, .error _) =>
          if isStr then (conn, st1, [.errF "Invalid JSON message format"])
          else
            let r := audioPath env now conn st1 raw
            (conn, r.1, r.2)
      else
        let r := audioPath env now conn st raw
        (conn, r.1, r.2)
    | none =>
      let r := audioPath env now conn st raw
      (conn, r.1, r.2)
  | .other _ =>
    let r := audioPath env now conn st raw
    (conn, r.1, r.2)

/-- One inbound frame through the message handler (websocket.service.js
lines 77 to 245).  String frames and binary frames whose bytes start with
a left brace are offered to JSON.parse; a parse throw on a string frame
answers the invalid-JSON error, while a parse throw on a binary frame falls
through to the binary-audio path, as does any frame that was never a parse
candidate. -/
def handleMessage (env : Env) (now : Nat) (conn : Conn) (st : Store)
    (msg : InMsg) : Conn × Store × List OutMsg :=
  if msg.isString || msg.startsLbrace then
    match msg.parsed with
    | some c => handleControl env now conn st c msg.isString msg.raw
    | none =>
      if msg.isString then (conn, st, [.errF "Invalid JSON message format"])
      else
        let r := audioPath env now conn st msg.raw
        (conn, r.1, r.2)
  else
    let r := audioPath env now conn st msg.raw
    (conn, r.1, r.2)

/-- The frames of one connection processed in arrival order, one at a
time, with the reply frames concatenated in order. -/
def handleMessages (env : Env) (now : Nat) (conn : Conn) (st : Store) :
    List InMsg → Conn × Store × List OutMsg
  | [] => (conn, st, [])
  | m :: ms =>
    let r := handleMessage env now conn st m
    let rest := handleMessages env now r.1 r.2.1 ms
    (rest.1, rest.2.1, r.2.2 ++ rest.2.2)

/-- The POST /api/chat/new request: the authorization header and the
title field of the body (undefined modelled as none). -/
structure HttpReq where
  authHeader : Option String
  title : Option String
deriving DecidableEq, Repr

/-- The data object of a successful POST /api/chat/new response. -/
structure ChatNewData where
  chatId : String
  title : String
  createdAt : TimeVal
  lastUpdated : TimeVal
deriving DecidableEq, Repr

/-- The responses the endpoint produces: 201 with success:true and the
data object, 401 with a message, or 500 with success:false and an
error string. -/
inductive HttpRes
  | ok201 (data : ChatNewData)
  | err401 (message : String)
  | err500 (error : String)
deriving DecidableEq, Repr

/-- Server-assigned firestore document id. -/
def freshId (st : Store) : String :=
  "chat" ++ toString st.nextId

/-- authMiddleware (middleware/auth.js) followed by startConversation
(conversation controller): the middleware rejects a missing header or one
not starting with Bearer, splits on a space and verifies the second part;
the controller takes one ISO timestamp, creates the session document with
createdAt equal to lastUpdated, seeds one assistant message, and answers
201 with the data object; a document-store failure is caught and answered
500. -/
def startConversation (env : Env) (req : HttpReq) (now : Nat) (st : Store) :
    HttpRes × Store :=
  match req.authHeader with
  | none => (.err401 "Unauthorized missing or invalid authorization header", st)
  | some h =>
    if strStartsWith h "Bearer" then
      match env.verify ((jsSplit h ' ').getD 1 "") with
      | none => (.err401 "unauthorized invalid token", st)
      | some user =>
        if env.dbOk then
          let title := req.title.getD "New Chat"
          let ts := TimeVal.iso now
          let chatId := freshId st
          let st1 : Store :=
            { st with
              sessions := st.sessions ++
                [(chatId, { userId := user.uid, title := title,
                            createdAt := ts, lastUpdated := ts })],
              nextId := st.nextId + 1 }
          let st2 : Store :=
            { st1 with
              messages := st1.messages ++
                [(chatId, { messageId := st1.nextId, role := "assistant",
                            text := some "How can i help you today ?",
                            timestamp := ts, sourceType := "text" })],
              nextId := st1.nextId + 1 }
          (.ok201 { chatId := chatId, title := title,
                    createdAt := ts, lastUpdated := ts }, st2)
        else (.err500 "Failed to start conversation", st)
    else (.err401 "Unauthorized missing or invalid authorization header", st)

/-- A concrete user for concrete runs. -/
def aliceUser : User := { uid := "alice", role := "user" }

/-- A concrete environment where every external collaborator succeeds. -/
def demoEnv : Env :=
  { requireAuth := false, dbOk := true,
    verify := fun t => if t = "tok-alice" then some aliceUser else none,
    stt := fun raw => .ok (if raw.isEmpty then "" else "what time is it"),
    flask := fun _ q => .ok ("answer to " ++ q),
    tts := fun _ => .ok "b64audio" }

/-- demoEnv with REQUIRE_AUTH configured. -/
def demoEnvAuthReq : Env := { demoEnv with requireAuth := true }

/-- demoEnv whose STT always returns an empty transcription. -/
def demoEnvSilent : Env := { demoEnv with stt := fun _ => .ok "" }

/-- demoEnv whose token verification always fails. -/
def demoEnvNoVerify : Env := { demoEnv with verify := fun _ => none }

/-- demoEnv whose TTS engine always fails. -/
def demoEnvTtsDown : Env := { demoEnv with tts := fun _ => .error "tts down" }

/-- demoEnv whose document store backend is down. -/
def demoEnvDbDown : Env := { demoEnv with dbOk := false }

/-- A connection authenticated as alice and bound to session S1. -/
def demoConn : Conn :=
  { userId := "alice", authenticated := false, currentChatId := some "S1" }

/-- demoConn marked authenticated. -/
def demoAuthConn : Conn := { demoConn with authenticated := true }

/-- A fresh anonymous connection. -/
def anonConn : Conn :=
  { userId := "anonymous", authenticated := false, currentChatId := none }

/-- A connection authenticated as bob, not yet bound to a session. -/
def bobConn : Conn :=
  { userId := "bob", authenticated := true, currentChatId := none }

/-- A store holding the single session S1 owned by alice. -/
def demoStore : Store :=
  { sessions := [("S1", { userId := "alice", title := "T",
                          createdAt := .iso 500, lastUpdated := .iso 500 })],
    messages := [], logs := [], nextId := 0 }

/-- A text_message control frame. -/
def textFrame (t : String) : InMsg :=
  { isString := true, startsLbrace := true,
    parsed := some (.textMessage (some t)), raw := [] }

/-- A binary audio frame carrying these bytes (not starting with a left
brace). -/
def audioFrame (raw : List Nat) : InMsg :=
  { isString := false, startsLbrace := false, parsed := none, raw := raw }

/-- A concrete binary audio frame. -/
def binFrame : InMsg := audioFrame [1, 2, 3]

/-- A set_chat_id control frame. -/
def setChatFrame (cid : String) : InMsg :=
  { isString := true, startsLbrace := true,
    parsed := some (.setChatId (some cid)), raw := [] }

/-- An auth control frame. -/
def authFrame (tok : String) : InMsg :=
  { isString := true, startsLbrace := true,
    parsed := some (.auth (some tok)), raw := [] }

/-- A control frame with an unrecognised type. -/
def bogusFrame (ty : String) : InMsg :=
  { isString := true, startsLbrace := true,
    parsed := some (.other ty), raw := [7, 8, 9] }

/-- An authenticated POST /api/chat/new request. -/
def c9req : HttpReq := { authHeader := some "Bearer tok-alice", title := some "T" }

/-- The only error strings the websocket handler ever places in an
error-typed reply frame. -/
def benignErr (e : String) : Prop :=
  e = "Authentication required" ∨ e = "No active chat session" ∨
  e = "Invalid JSON message format"

/-- Every reply frame the websocket handler can send is one of these. -/
def wsReplyOk (o : OutMsg) : Prop :=
  (∃ e, o = .errF e ∧ benignErr e) ∨ (∃ e, o = .plainFail e) ∨
  (∃ u, o = .authSuccess u) ∨ (∃ r, o = .speechResponse r) ∨
  (∃ b, o = .audioContent b)

theorem audioPath_outs (env : Env) (now : Nat) (conn : Conn) (st : Store)
    (raw : List Nat) : ∀ o ∈ (audioPath env now conn st raw).2, wsReplyOk o := by
  intro o ho
  unfold audioPath at ho
  split at ho
  · simp at ho; subst ho; exact Or.inl ⟨_, rfl, Or.inl rfl⟩
  · split at ho
    · simp at ho; subst ho; exact Or.inl ⟨_, rfl, Or.inr (Or.inl rfl)⟩
    · split at ho
      · simp at ho; subst ho; exact Or.inl ⟨_, rfl, Or.inr (Or.inl rfl)⟩
      · split at ho
        · simp at ho; subst ho; exact Or.inr (Or.inl ⟨_, rfl⟩)
        · split at ho
          · simp at ho; subst ho; exact Or.inr (Or.inl ⟨_, rfl⟩)
          · split at ho
            · simp at ho; subst ho; exact Or.inr (Or.inl ⟨_, rfl⟩)
            · split at ho
              · split at ho
                · simp at ho
                  rcases ho with ho | ho
                  · subst ho; exact Or.inr (Or.inr (Or.inr (Or.inl ⟨_, rfl⟩)))
                  · subst ho; exact Or.inr (Or.inr (Or.inr (Or.inr ⟨_, rfl⟩)))
                · simp at ho; subst ho
                  exact Or.inr (Or.inr (Or.inr (Or.inl ⟨_, rfl⟩)))
              · simp at ho; subst ho
                exact Or.inr (Or.inr (Or.inr (Or.inl ⟨_, rfl⟩)))

theorem textTurn_outs (env : Env) (now : Nat) (conn : Conn) (st : Store)
    (t : String) (outs : List OutMsg)
    (hok : (textTurn env now conn st t).2 = .ok outs) :
    ∀ o ∈ outs, wsReplyOk o := by
  intro o ho
  unfold textTurn at hok
  split at hok
  · injection hok with hok
    subst hok
    simp at ho
    subst ho
    exact Or.inl ⟨_, rfl, Or.inr (Or.inl rfl)⟩
  · split at hok
    · injection hok with hok
      subst hok
      simp at ho
      subst ho
      exact Or.inl ⟨_, rfl, Or.inr (Or.inl rfl)⟩
    · split at hok
      · exact Except.noConfusion hok
      · split at hok
        · exact Except.noConfusion hok
        · split at hok
          · exact Except.noConfusion hok
          · split at hok
            · exact Except.noConfusion hok
            · injection hok with hok
              subst hok
              simp at ho
              rcases ho with ho | ho
              · subst ho; exact Or.inr (Or.inr (Or.inr (Or.inl ⟨_, rfl⟩)))
              · subst ho; exact Or.inr (Or.inr (Or.inr (Or.inr ⟨_, rfl⟩)))

theorem handleControl_outs (env : Env) (now : Nat) (conn : Conn) (st : Store)
    (c : ControlMsg) (isStr : Bool) (raw : List Nat) :
    ∀ o ∈ (handleControl env now conn st c isStr raw).2.2, wsReplyOk o := by
  intro o ho
  unfold handleControl at ho
  split at ho
  · split at ho
    · split at ho
      · simp at ho; subst ho; exact Or.inr (Or.inr (Or.inl ⟨_, rfl⟩))
      · exact audioPath_outs env now conn st raw o ho
    · exact audioPath_outs env now conn st raw o ho
  · simp at ho
  · simp at ho
  · simp at ho
  · simp at ho
  · rename_i text t
    split at ho
    · rename_i t2
      split at ho
      · rcases hres : textTurn env now conn st t2 with ⟨st1, res⟩
        rw [hres] at ho
        cases res with
        | ok outs1 =>
          simp at ho
          exact textTurn_outs env now conn st t2 outs1 (by rw [hres]) o ho
        | error e =>
          simp at ho
          split at ho
          · simp at ho
            subst ho
            exact Or.inl ⟨_, rfl, Or.inr (Or.inr rfl)⟩
          · exact audioPath_outs env now conn st1 raw o ho
      · exact audioPath_outs env now conn st raw o ho
    · exact audioPath_outs env now conn st raw o ho
  · exact audioPath_outs env now conn st raw o ho

theorem handleMessage_outs (env : Env) (now : Nat) (conn : Conn) (st : Store)
    (msg : InMsg) : ∀ o ∈ (handleMessage env now conn st msg).2.2, wsReplyOk o := by
  intro o ho
  unfold handleMessage at ho
  split at ho
  · split at ho
    · exact handleControl_outs env now conn st _ msg.isString msg.raw o ho
    · split at ho
      · simp at ho; subst ho
        exact Or.inl ⟨_, rfl, Or.inr (Or.inr rfl)⟩
      · exact audioPath_outs env now conn st msg.raw o ho
  · exact audioPath_outs env now conn st msg.raw o ho

theorem handleMessages_outs (env : Env) (now : Nat) :
    ∀ (msgs : List InMsg) (conn : Conn) (st : Store),
      ∀ o ∈ (handleMessages env now conn st msgs).2.2, wsReplyOk o := by
  intro msgs
  induction msgs with
  | nil => intro conn st o ho; simp [handleMessages] at ho
  | cons m ms ih =>
    intro conn st o ho
    unfold handleMessages at ho
    rw [List.mem_append] at ho
    rcases ho with ho | ho
    · exact handleMessage_outs env now conn st m o ho
    · exact ih _ _ o ho

theorem busy_not_benign : ¬ benignErr "Busy" := by
  intro h
  rcases h with h | h | h <;> simp at h

/-- C1 (amended): the gateway keeps no turn state and never answers any
frame with an error reply reading Busy; every frame, including a
turn-initiating one arriving right after another, is processed as its own
complete turn, and in the arrival-order frame model the reply frames of
one frame are emitted in full before those of the next frame. -/
theorem c1_no_busy_sequential (env : Env) (now : Nat) (conn : Conn)
    (st : Store) (msgs : List InMsg) (m : InMsg) (ms : List InMsg) :
    OutMsg.errF "Busy" ∉ (handleMessages env now conn st msgs).2.2 ∧
    (handleMessages env now conn st (m :: ms)).2.2 =
      (handleMessage env now conn st m).2.2 ++
        (handleMessages env now (handleMessage env now conn st m).1
          (handleMessage env now conn st m).2.1 ms).2.2 := by
  constructor
  · intro hmem
    have hshape := handleMessages_outs env now msgs conn st _ hmem
    rcases hshape with ⟨e, he, hb⟩ | ⟨e, he⟩ | ⟨u, he⟩ | ⟨r, he⟩ | ⟨b, he⟩
    · injection he with he1
      rw [← he1] at hb
      exact busy_not_benign hb
    · exact OutMsg.noConfusion he
    · exact OutMsg.noConfusion he
    · exact OutMsg.noConfusion he
    · exact OutMsg.noConfusion he
  · rfl

/-- C1 counterexample: with every collaborator healthy, a connection that
sends two text_message frames back to back receives two full reply pairs;
the second frame is not answered with a single Busy error (no output is a
Busy error) and its pipeline runs, appending a second pair of messages. -/
theorem c1_counterexample :
    (handleMessages demoEnv 1000 demoAuthConn demoStore
        [textFrame "hello", textFrame "again"]).2.2 =
      [.speechResponse
         { success := true, transcription := some "hello",
           textResponse := some "answer to hello",
           metadata := some { intent := "UNKNOWN", confidence := 0.85 },
           reason := none },
       .audioContent "b64audio",
       .speechResponse
         { success := true, transcription := some "again",
           textResponse := some "answer to again",
           metadata := some { intent := "UNKNOWN", confidence := 0.85 },
           reason := none },
       .audioContent "b64audio"] ∧
    OutMsg.errF "Busy" ∉ (handleMessages demoEnv 1000 demoAuthConn demoStore
        [textFrame "hello", textFrame "again"]).2.2 ∧
    (listMessages (handleMessages demoEnv 1000 demoAuthConn demoStore
        [textFrame "hello", textFrame "again"]).2.1 "S1").length = 4 := by
  exact ⟨rfl, by decide, rfl⟩

theorem findSession_updateSession (l : List (String × SessionDoc)) (cid : String)
    (f : SessionDoc → SessionDoc) :
    findSession (updateSession l cid f) cid = (findSession l cid).map f := by
  induction l with
  | nil => rfl
  | cons p rest ih =>
    obtain ⟨k, v⟩ := p
    simp only [updateSession, List.map_cons]
    by_cases h : k = cid
    · subst h
      rw [if_pos rfl]
      simp [findSession]
    · rw [if_neg (by simpa using h)]
      simp only [findSession, if_neg h]
      exact ih

/-- The normal-case behaviour of storeMessage: the message is appended
with a fresh id and the session lastUpdated becomes the day-resolution
timestamp. -/
theorem storeMessage_ok (env : Env) (st : Store) (chatId role : String)
    (text : Option String) (userId sourceType : String) (now : Nat)
    (sess : SessionDoc) (hdb : env.dbOk = true)
    (hsess : findSession st.sessions chatId = some sess) :
    storeMessage env st chatId role text userId sourceType now =
      .ok ({ st with
              sessions := updateSession st.sessions chatId
                (fun s => { s with lastUpdated := TimeVal.dayOnly (now / msPerDay) }),
              messages := st.messages ++
                [(chatId, { messageId := st.nextId, role := role, text := text,
                            timestamp := TimeVal.dayOnly (now / msPerDay),
                            sourceType := sourceType })],
              nextId := st.nextId + 1 }, st.nextId) := by
  simp [storeMessage, hdb, hsess]

/-- listMessages depends only on the messages field and distributes over
the appended batch. -/
theorem listMessages_append (st : Store) (chatId : String)
    (sessions2 : List (String × SessionDoc)) (logs2 : List (String × String))
    (n2 : Nat) (batch : List (String × MessageDoc)) :
    listMessages { sessions := sessions2, messages := st.messages ++ batch,
                   logs := logs2, nextId := n2 } chatId =
      listMessages st chatId ++
        (batch.filter (fun p => p.1 == chatId)).map (fun p => p.2) := by
  simp [listMessages, List.filter_append]

/-- C2 (amended): on an audio turn whose transcription is empty, the
gateway emits a speech_response with success false and no reason field
(the source never writes a reason of no_speech), and still appends two
messages to the bound session: a user message and an assistant message
whose text fields are both undefined. -/
theorem c2_empty_transcription (env : Env) (now : Nat) (conn : Conn)
    (st : Store) (raw : List Nat) (chatId : String) (sess : SessionDoc)
    (hstt : env.stt raw = .ok "")
    (hchat : conn.currentChatId = some chatId)
    (hcne : chatId ≠ "")
    (hauth : conn.authenticated = true)
    (hdb : env.dbOk = true)
    (hsess : findSession st.sessions chatId = some sess) :
    (handleMessage env now conn st (audioFrame raw)).2.2 =
      [.speechResponse { success := false, transcription := none,
                         textResponse := none, metadata := none, reason := none }] ∧
    listMessages (handleMessage env now conn st (audioFrame raw)).2.1 chatId =
      listMessages st chatId ++
        [{ messageId := st.nextId, role := "user", text := none,
           timestamp := .dayOnly (now / msPerDay), sourceType := "voice" },
         { messageId := st.nextId + 1, role := "assistant", text := none,
           timestamp := .dayOnly (now / msPerDay), sourceType := "text" }] := by
  have hps : processSpeechStream env st raw conn.userId =
      (st, .ok { success := false, transcription := none, textResponse := none,
                 audioContent := none, metadata := none }) := by
    unfold processSpeechStream
    rw [hstt]
    rfl
  have h1 := storeMessage_ok env st chatId "user" none conn.userId "voice" now
    sess hdb hsess
  have hsess2 : findSession (updateSession st.sessions chatId
        (fun s => { s with lastUpdated := TimeVal.dayOnly (now / msPerDay) }))
        chatId =
      some { sess with lastUpdated := TimeVal.dayOnly (now / msPerDay) } := by
    rw [findSession_updateSession, hsess]
    rfl
  have h2 := storeMessage_ok env
      { st with
        sessions := updateSession st.sessions chatId
          (fun s => { s with lastUpdated := TimeVal.dayOnly (now / msPerDay) }),
        messages := st.messages ++
          [(chatId, { messageId := st.nextId, role := "user", text := none,
                      timestamp := TimeVal.dayOnly (now / msPerDay),
                      sourceType := "voice" })],
        nextId := st.nextId + 1 }
      chatId "assistant" none conn.userId "text" now _ hdb hsess2
  constructor
  · simp [handleMessage, audioFrame, audioPath, hauth, hchat, hcne, hps, h1, h2]
  · simp [handleMessage, audioFrame, audioPath, hauth, hchat, hcne, hps, h1, h2,
      listMessages, List.filter_append]

/-- C2 witness: the amended statement at a concrete silent-audio turn. -/
theorem c2_witness :
    (handleMessage demoEnvSilent 1000 demoAuthConn demoStore
        (audioFrame [1, 2, 3])).2.2 =
      [.speechResponse { success := false, transcription := none,
                         textResponse := none, metadata := none, reason := none }] ∧
    listMessages (handleMessage demoEnvSilent 1000 demoAuthConn demoStore
        (audioFrame [1, 2, 3])).2.1 "S1" =
      listMessages demoStore "S1" ++
        [{ messageId := demoStore.nextId, role := "user", text := none,
           timestamp := .dayOnly (1000 / msPerDay), sourceType := "voice" },
         { messageId := demoStore.nextId + 1, role := "assistant", text := none,
           timestamp := .dayOnly (1000 / msPerDay), sourceType := "text" }] :=
  c2_empty_transcription demoEnvSilent 1000 demoAuthConn demoStore [1, 2, 3] "S1"
    { userId := "alice", title := "T", createdAt := .iso 500, lastUpdated := .iso 500 }
    rfl rfl (by decide) rfl rfl rfl

/-- C2 counterexample: on a concrete silent audio turn the emitted
speech_response carries no reason field at all (reason is none, not
no_speech), and the session message list is changed by the turn. -/
theorem c2_counterexample :
    (handleMessage demoEnvSilent 1000 demoAuthConn demoStore binFrame).2.2 =
      [.speechResponse { success := false, transcription := none,
                         textResponse := none, metadata := none, reason := none }] ∧
    listMessages (handleMessage demoEnvSilent 1000 demoAuthConn demoStore
        binFrame).2.1 "S1" ≠ listMessages demoStore "S1" := by
  exact ⟨rfl, by decide⟩

/-- C3 (amended): with REQUIRE_AUTH configured and the connection not
authenticated, a frame reaching the binary-audio path is answered with the
single Authentication required error and neither the pipeline nor the
store is touched; a text_message control frame is not guarded up front:
with a bound chat and healthy collaborators its full pipeline runs,
persisting both turn messages and replying normally despite the missing
authentication (only if its pipeline throws on a buffer-framed message
does execution fall into the binary path where the guard then fires). -/
theorem c3_auth_guard (env : Env) (now : Nat) (conn : Conn) (st : Store)
    (raw rawT : List Nat) (t chatId ans b64 : String) (sess : SessionDoc)
    (sb : Bool)
    (hauth : conn.authenticated = false)
    (hreq : env.requireAuth = true)
    (ht : t ≠ "")
    (hnq : jsToLower t ≠ "")
    (hchat : conn.currentChatId = some chatId)
    (hcne : chatId ≠ "")
    (hdb : env.dbOk = true)
    (hsess : findSession st.sessions chatId = some sess)
    (hflask : env.flask conn.userId (jsToLower t) = .ok ans)
    (htts : env.tts ans = .ok b64) :
    handleMessage env now conn st (audioFrame raw) =
      (conn, st, [.errF "Authentication required"]) ∧
    (handleMessage env now conn st
        { isString := true, startsLbrace := sb,
          parsed := some (.textMessage (some t)), raw := rawT }).2.2 =
      [.speechResponse
         { success := true, transcription := some t,
           textResponse := some ans,
           metadata := some { intent := determineIntent (jsToLower t),
                              confidence := 0.85 },
           reason := none },
       .audioContent b64] ∧
    listMessages (handleMessage env now conn st
        { isString := true, startsLbrace := sb,
          parsed := some (.textMessage (some t)), raw := rawT }).2.1 chatId =
      listMessages st chatId ++
        [{ messageId := st.nextId, role := "user", text := some t,
           timestamp := .dayOnly (now / msPerDay), sourceType := "text" },
         { messageId := st.nextId + 1, role := "assistant", text := some ans,
           timestamp := .dayOnly (now / msPerDay), sourceType := "text" }] := by
  have h1 := storeMessage_ok env st chatId "user" (some t) conn.userId "text" now
    sess hdb hsess
  have hq : queryContextualData env t conn.userId =
      .ok { answer := ans,
            metadata := { intent := determineIntent (jsToLower t),
                          confidence := 0.85 } } := by
    simp [queryContextualData, hnq, hflask]
  have hsess2 : findSession (updateSession st.sessions chatId
        (fun s => { s with lastUpdated := TimeVal.dayOnly (now / msPerDay) }))
        chatId =
      some { sess with lastUpdated := TimeVal.dayOnly (now / msPerDay) } := by
    rw [findSession_updateSession, hsess]
    rfl
  have h2 := storeMessage_ok env
      { st with
        sessions := updateSession st.sessions chatId
          (fun s => { s with lastUpdated := TimeVal.dayOnly (now / msPerDay) }),
        messages := st.messages ++
          [(chatId, { messageId := st.nextId, role := "user", text := some t,
                      timestamp := TimeVal.dayOnly (now / msPerDay),
                      sourceType := "text" })],
        nextId := st.nextId + 1 }
      chatId "assistant" (some ans) conn.userId "text" now _ hdb hsess2
  refine ⟨?_, ?_, ?_⟩
  · simp [handleMessage, audioFrame, audioPath, hauth, hreq]
  · simp [handleMessage, handleControl, textTurn, truthyOpt, ht, hchat, hcne,
      h1, hq, htts, h2]
  · simp [handleMessage, handleControl, textTurn, truthyOpt, ht, hchat, hcne,
      h1, hq, htts, h2, listMessages, List.filter_append]

/-- C3 witness: the guard and the text_message bypass at a concrete
unauthenticated connection with REQUIRE_AUTH configured. -/
theorem c3_witness :
    handleMessage demoEnvAuthReq 1000 demoConn demoStore (audioFrame [1, 2, 3]) =
      (demoConn, demoStore, [.errF "Authentication required"]) ∧
    (handleMessage demoEnvAuthReq 1000 demoConn demoStore
        { isString := true, startsLbrace := true,
          parsed := some (.textMessage (some "hello")), raw := [] }).2.2 =
      [.speechResponse
         { success := true, transcription := some "hello",
           textResponse := some "answer to hello",
           metadata := some { intent := determineIntent (jsToLower "hello"),
                              confidence := 0.85 },
           reason := none },
       .audioContent "b64audio"] ∧
    listMessages (handleMessage demoEnvAuthReq 1000 demoConn demoStore
        { isString := true, startsLbrace := true,
          parsed := some (.textMessage (some "hello")), raw := [] }).2.1 "S1" =
      listMessages demoStore "S1" ++
        [{ messageId := demoStore.nextId, role := "user", text := some "hello",
           timestamp := .dayOnly (1000 / msPerDay), sourceType := "text" },
         { messageId := demoStore.nextId + 1, role := "assistant",
           text := some "answer to hello",
           timestamp := .dayOnly (1000 / msPerDay), sourceType := "text" }] :=
  c3_auth_guard demoEnvAuthReq 1000 demoConn demoStore [1, 2, 3] []
    "hello" "S1" "answer to hello" "b64audio"
    { userId := "alice", title := "T", createdAt := .iso 500, lastUpdated := .iso 500 }
    true rfl rfl (by decide) (by decide) rfl (by decide) rfl rfl rfl rfl

/-- C3 counterexample: with REQUIRE_AUTH configured and the connection not
authenticated, a text_message frame is answered with the full pipeline
replies, not with Authentication required, and both turn messages are
persisted. -/
theorem c3_counterexample :
    (handleMessage demoEnvAuthReq 1000 demoConn demoStore
        (textFrame "hello")).2.2 =
      [.speechResponse
         { success := true, transcription := some "hello",
           textResponse := some "answer to hello",
           metadata := some { intent := "UNKNOWN", confidence := 0.85 },
           reason := none },
       .audioContent "b64audio"] ∧
    (listMessages (handleMessage demoEnvAuthReq 1000 demoConn demoStore
        (textFrame "hello")).2.1 "S1").length = 2 := by
  exact ⟨rfl, rfl⟩

/-- C4 (amended): the websocket persist path enforces no ownership.
storeMessage appends the message under whatever chatId the connection is
bound to even when the session owner differs from the writing user, and
the websocket handler never emits an error frame reading forbidden. -/
theorem c4_no_ownership_check (env : Env) (st : Store) (chatId role : String)
    (text : Option String) (userId sourceType : String) (now now2 : Nat)
    (sess : SessionDoc) (conn : Conn) (msg : InMsg)
    (hdb : env.dbOk = true)
    (hsess : findSession st.sessions chatId = some sess)
    (howner : sess.userId ≠ userId) :
    (storeMessage env st chatId role text userId sourceType now =
      .ok ({ st with
              sessions := updateSession st.sessions chatId
                (fun s => { s with lastUpdated := TimeVal.dayOnly (now / msPerDay) }),
              messages := st.messages ++
                [(chatId, { messageId := st.nextId, role := role, text := text,
                            timestamp := TimeVal.dayOnly (now / msPerDay),
                            sourceType := sourceType })],
              nextId := st.nextId + 1 }, st.nextId)) ∧
    listMessages
        { st with
          sessions := updateSession st.sessions chatId
            (fun s => { s with lastUpdated := TimeVal.dayOnly (now / msPerDay) }),
          messages := st.messages ++
            [(chatId, { messageId := st.nextId, role := role, text := text,
                        timestamp := TimeVal.dayOnly (now / msPerDay),
                        sourceType := sourceType })],
          nextId := st.nextId + 1 } chatId =
      listMessages st chatId ++
        [{ messageId := st.nextId, role := role, text := text,
           timestamp := .dayOnly (now / msPerDay), sourceType := sourceType }] ∧
    OutMsg.errF "forbidden" ∉ (handleMessage env now2 conn st msg).2.2 := by
  refine ⟨storeMessage_ok env st chatId role text userId sourceType now sess hdb hsess,
    ?_, ?_⟩
  · simp [listMessages, List.filter_append]
  · intro hmem
    have hshape := handleMessage_outs env now2 conn st msg _ hmem
    rcases hshape with ⟨e, he, hb⟩ | ⟨e, he⟩ | ⟨u, he⟩ | ⟨r, he⟩ | ⟨b, he⟩
    · injection he with he1
      rw [← he1] at hb
      rcases hb with h | h | h <;> simp at h
    · exact OutMsg.noConfusion he
    · exact OutMsg.noConfusion he
    · exact OutMsg.noConfusion he
    · exact OutMsg.noConfusion he

/-- C4 witness: bob writing into the session owned by alice. -/
theorem c4_witness :
    (storeMessage demoEnv demoStore "S1" "user" (some "hi") "bob" "text" 1000 =
      .ok ({ demoStore with
              sessions := updateSession demoStore.sessions "S1"
                (fun s => { s with lastUpdated := TimeVal.dayOnly (1000 / msPerDay) }),
              messages := demoStore.messages ++
                [("S1", { messageId := demoStore.nextId, role := "user",
                          text := some "hi",
                          timestamp := TimeVal.dayOnly (1000 / msPerDay),
                          sourceType := "text" })],
              nextId := demoStore.nextId + 1 }, demoStore.nextId)) ∧
    listMessages
        { demoStore with
          sessions := updateSession demoStore.sessions "S1"
            (fun s => { s with lastUpdated := TimeVal.dayOnly (1000 / msPerDay) }),
          messages := demoStore.messages ++
            [("S1", { messageId := demoStore.nextId, role := "user",
                      text := some "hi",
                      timestamp := TimeVal.dayOnly (1000 / msPerDay),
                      sourceType := "text" })],
          nextId := demoStore.nextId + 1 } "S1" =
      listMessages demoStore "S1" ++
        [{ messageId := demoStore.nextId, role := "user", text := some "hi",
           timestamp := .dayOnly (1000 / msPerDay), sourceType := "text" }] ∧
    OutMsg.errF "forbidden" ∉
      (handleMessage demoEnv 1000 bobConn demoStore binFrame).2.2 :=
  c4_no_ownership_check demoEnv demoStore "S1" "user" (some "hi") "bob" "text"
    1000 1000
    { userId := "alice", title := "T", createdAt := .iso 500, lastUpdated := .iso 500 }
    bobConn binFrame rfl rfl (by decide)

/-- C4 counterexample: client bob binds to session S1 owned by alice and
sends a text_message; the turn is answered with the full pipeline replies,
never with a forbidden error, and both turn messages are persisted under
S1. -/
theorem c4_counterexample :
    (findSession demoStore.sessions "S1").map SessionDoc.userId = some "alice" ∧
    bobConn.userId = "bob" ∧
    (handleMessages demoEnv 1000 bobConn demoStore
        [setChatFrame "S1", textFrame "hi"]).2.2 =
      [.speechResponse
         { success := true, transcription := some "hi",
           textResponse := some "answer to hi",
           metadata := some { intent := "UNKNOWN", confidence := 0.85 },
           reason := none },
       .audioContent "b64audio"] ∧
    (listMessages (handleMessages demoEnv 1000 bobConn demoStore
        [setChatFrame "S1", textFrame "hi"]).2.1 "S1").length = 2 ∧
    OutMsg.errF "forbidden" ∉
      (handleMessages demoEnv 1000 bobConn demoStore
        [setChatFrame "S1", textFrame "hi"]).2.2 := by
  exact ⟨rfl, rfl, rfl, rfl, by decide⟩

/-- Every error-typed reply of the handler carries one of the three
benign error strings. -/
theorem handleMessage_errF_benign (env : Env) (now : Nat) (conn : Conn)
    (st : Store) (msg : InMsg) (e : String)
    (h : OutMsg.errF e ∈ (handleMessage env now conn st msg).2.2) :
    benignErr e := by
  have hshape := handleMessage_outs env now conn st msg _ h
  rcases hshape with ⟨x, hx, hb⟩ | ⟨x, hx⟩ | ⟨x, hx⟩ | ⟨x, hx⟩ | ⟨x, hx⟩
  · injection hx with hx1
    rw [← hx1] at hb
    exact hb
  all_goals exact OutMsg.noConfusion hx

/-- C5 (amended): a control frame with an unrecognised type is never
answered with an Unknown control type error (no such reply exists in the
handler); the frame instead falls through to the binary-audio path, where
after the auth and chat guards its raw bytes are fed to the speech
pipeline. -/
theorem c5_unknown_type_falls_through (env : Env) (now : Nat) (conn : Conn)
    (st : Store) (ty : String) (raw : List Nat) (sb : Bool) (msg : InMsg) :
    handleMessage env now conn st
        { isString := true, startsLbrace := sb,
          parsed := some (.other ty), raw := raw } =
      (conn, (audioPath env now conn st raw).1,
        (audioPath env now conn st raw).2) ∧
    OutMsg.errF "Unknown control type" ∉
      (handleMessage env now conn st msg).2.2 := by
  constructor
  · rfl
  · intro hmem
    have hb := handleMessage_errF_benign env now conn st msg _ hmem
    rcases hb with h | h | h <;> simp at h

/-- C5 counterexample: a control frame of type bogus on a connection with
the guards satisfied triggers the speech pipeline on the raw frame bytes
and persists a turn; it is not answered with an Unknown control type
error. -/
theorem c5_counterexample :
    (handleMessage demoEnv 1000 demoAuthConn demoStore
        (bogusFrame "bogus")).2.2 =
      [.speechResponse
         { success := true, transcription := some "what time is it",
           textResponse := some "answer to what time is it",
           metadata := some { intent := "TIME_QUERY", confidence := 0.85 },
           reason := none },
       .audioContent "b64audio"] ∧
    (handleMessage demoEnv 1000 demoAuthConn demoStore
        (bogusFrame "bogus")).2.2 ≠ [.errF "Unknown control type"] ∧
    (listMessages (handleMessage demoEnv 1000 demoAuthConn demoStore
        (bogusFrame "bogus")).2.1 "S1").length = 2 := by
  exact ⟨rfl, by decide, rfl⟩

/-- C6 (amended): for an auth control frame with a truthy token, on
successful verification the gateway replies with a single auth_success
carrying the userId and marks the connection authenticated; on failed
verification verifyToken returns null rather than throwing, so the
auth_error branch is dead: no auth_error frame is ever sent, the frame
falls through to the binary-audio path, and the connection identity and
authenticated flag are unchanged. -/
theorem c6_auth_frame (env envBad : Env) (now : Nat) (conn : Conn)
    (st : Store) (tok : String) (raw : List Nat) (u : User) (sb : Bool)
    (e : String)
    (htok : tok ≠ "")
    (hv : env.verify tok = some u)
    (hbad : envBad.verify tok = none) :
    handleMessage env now conn st
        { isString := true, startsLbrace := sb,
          parsed := some (.auth (some tok)), raw := raw } =
      ({ conn with userId := u.uid, authenticated := true }, st,
        [.authSuccess u.uid]) ∧
    handleMessage envBad now conn st
        { isString := true, startsLbrace := sb,
          parsed := some (.auth (some tok)), raw := raw } =
      (conn, (audioPath envBad now conn st raw).1,
        (audioPath envBad now conn st raw).2) ∧
    OutMsg.authError e ∉ (handleMessage envBad now conn st
        { isString := true, startsLbrace := sb,
          parsed := some (.auth (some tok)), raw := raw }).2.2 := by
  refine ⟨?_, ?_, ?_⟩
  · simp [handleMessage, handleControl, truthyOpt, htok, hv]
  · simp [handleMessage, handleControl, truthyOpt, htok, hbad]
  · intro hmem
    have hshape := handleMessage_outs envBad now conn st _ _ hmem
    rcases hshape with ⟨x, hx, hb⟩ | ⟨x, hx⟩ | ⟨x, hx⟩ | ⟨x, hx⟩ | ⟨x, hx⟩
    all_goals exact OutMsg.noConfusion hx

/-- C6 witness: the auth frame at a concrete verifier. -/
theorem c6_witness :
    handleMessage demoEnv 1000 anonConn demoStore
        { isString := true, startsLbrace := true,
          parsed := some (.auth (some "tok-alice")), raw := [] } =
      ({ anonConn with userId := aliceUser.uid, authenticated := true },
        demoStore, [.authSuccess aliceUser.uid]) ∧
    handleMessage demoEnvNoVerify 1000 anonConn demoStore
        { isString := true, startsLbrace := true,
          parsed := some (.auth (some "tok-alice")), raw := [] } =
      (anonConn, (audioPath demoEnvNoVerify 1000 anonConn demoStore []).1,
        (audioPath demoEnvNoVerify 1000 anonConn demoStore []).2) ∧
    OutMsg.authError "Invalid token" ∉
      (handleMessage demoEnvNoVerify 1000 anonConn demoStore
        { isString := true, startsLbrace := true,
          parsed := some (.auth (some "tok-alice")), raw := [] }).2.2 :=
  c6_auth_frame demoEnv demoEnvNoVerify 1000 anonConn demoStore "tok-alice" []
    aliceUser true "Invalid token" (by decide) rfl rfl

/-- C6 counterexample: an auth frame whose token fails verification is
answered with neither auth_success nor auth_error; it falls through to
the audio path and (here, with no bound chat) is answered No active chat
session, with the connection state unchanged. -/
theorem c6_counterexample :
    (handleMessage demoEnvNoVerify 1000 anonConn demoStore
        (authFrame "bad")).2.2 = [.errF "No active chat session"] ∧
    (handleMessage demoEnvNoVerify 1000 anonConn demoStore
        (authFrame "bad")).1 = anonConn := by
  exact ⟨rfl, rfl⟩

/-- C7 (amended): a TTS failure on a text turn after the resolver has
produced an answer is intercepted by the inner parse catch at line 158,
not the outer catch: a string-framed text_message is answered with a
single Invalid JSON message format error frame, no speech_response and no
audio_content, and only the user message of the turn is persisted; a
buffer-framed text_message falls through into the binary-audio path on
the raw frame bytes, with the user message already persisted; on a voice
turn the TTS failure propagates to the outer catch as a single
success-false error frame carrying the thrown message and no session
message is persisted. -/
theorem c7_tts_failure (env : Env) (now : Nat) (conn : Conn) (st : Store)
    (t chatId ans e : String) (sess : SessionDoc) (rawT rawV : List Nat)
    (trV ansV eV : String)
    (ht : t ≠ "")
    (hnq : jsToLower t ≠ "")
    (hchat : conn.currentChatId = some chatId)
    (hcne : chatId ≠ "")
    (hauth : conn.authenticated = true)
    (hdb : env.dbOk = true)
    (hsess : findSession st.sessions chatId = some sess)
    (hflask : env.flask conn.userId (jsToLower t) = .ok ans)
    (htts : env.tts ans = .error e)
    (hstt : env.stt rawV = .ok trV)
    (htrV : trV ≠ "")
    (hnqV : jsToLower trV ≠ "")
    (hflaskV : env.flask conn.userId (jsToLower trV) = .ok ansV)
    (httsV : env.tts ansV = .error eV) :
    handleMessage env now conn st
        { isString := true, startsLbrace := true,
          parsed := some (.textMessage (some t)), raw := rawT } =
      (conn,
        { st with
          sessions := updateSession st.sessions chatId
            (fun s => { s with lastUpdated := TimeVal.dayOnly (now / msPerDay) }),
          messages := st.messages ++
            [(chatId, { messageId := st.nextId, role := "user", text := some t,
                        timestamp := TimeVal.dayOnly (now / msPerDay),
                        sourceType := "text" })],
          nextId := st.nextId + 1 },
        [.errF "Invalid JSON message format"]) ∧
    listMessages
        { st with
          sessions := updateSession st.sessions chatId
            (fun s => { s with lastUpdated := TimeVal.dayOnly (now / msPerDay) }),
          messages := st.messages ++
            [(chatId, { messageId := st.nextId, role := "user", text := some t,
                        timestamp := TimeVal.dayOnly (now / msPerDay),
                        sourceType := "text" })],
          nextId := st.nextId + 1 } chatId =
      listMessages st chatId ++
        [{ messageId := st.nextId, role := "user", text := some t,
           timestamp := .dayOnly (now / msPerDay), sourceType := "text" }] ∧
    handleMessage env now conn st
        { isString := false, startsLbrace := true,
          parsed := some (.textMessage (some t)), raw := rawT } =
      (conn,
        (audioPath env now conn
          { st with
            sessions := updateSession st.sessions chatId
              (fun s => { s with lastUpdated := TimeVal.dayOnly (now / msPerDay) }),
            messages := st.messages ++
              [(chatId, { messageId := st.nextId, role := "user",
                          text := some t,
                          timestamp := TimeVal.dayOnly (now / msPerDay),
                          sourceType := "text" })],
            nextId := st.nextId + 1 } rawT).1,
        (audioPath env now conn
          { st with
            sessions := updateSession st.sessions chatId
              (fun s => { s with lastUpdated := TimeVal.dayOnly (now / msPerDay) }),
            messages := st.messages ++
              [(chatId, { messageId := st.nextId, role := "user",
                          text := some t,
                          timestamp := TimeVal.dayOnly (now / msPerDay),
                          sourceType := "text" })],
            nextId := st.nextId + 1 } rawT).2) ∧
    handleMessage env now conn st (audioFrame rawV) =
      (conn, { st with logs := st.logs ++ [(trV, conn.userId)] },
        [.plainFail eV]) ∧
    listMessages { st with logs := st.logs ++ [(trV, conn.userId)] } chatId =
      listMessages st chatId := by
  have h1 := storeMessage_ok env st chatId "user" (some t) conn.userId "text" now
    sess hdb hsess
  have hq : queryContextualData env t conn.userId =
      .ok { answer := ans,
            metadata := { intent := determineIntent (jsToLower t),
                          confidence := 0.85 } } := by
    simp [queryContextualData, hnq, hflask]
  have hqV : queryContextualData env trV conn.userId =
      .ok { answer := ansV,
            metadata := { intent := determineIntent (jsToLower trV),
                          confidence := 0.85 } } := by
    simp [queryContextualData, hnqV, hflaskV]
  have hpsV : processSpeechStream env st rawV conn.userId =
      ({ st with logs := st.logs ++ [(trV, conn.userId)] }, .error eV) := by
    simp [processSpeechStream, hstt, htrV, storeProcessedTextLog, hdb, hqV,
      httsV]
  refine ⟨?_, ?_, ?_, ?_, ?_⟩
  · simp [handleMessage, handleControl, textTurn, truthyOpt, ht, hchat, hcne,
      h1, hq, htts]
  · simp [listMessages, List.filter_append]
  · simp [handleMessage, handleControl, textTurn, truthyOpt, ht, hchat, hcne,
      h1, hq, htts]
  · simp [handleMessage, audioFrame, audioPath, hauth, hchat, hcne, hpsV]
  · simp [listMessages]

/-- C7 witness: the three TTS-failure behaviours at a concrete
environment. -/
theorem c7_witness :
    handleMessage demoEnvTtsDown 1000 demoAuthConn demoStore
        { isString := true, startsLbrace := true,
          parsed := some (.textMessage (some "hello")), raw := [9] } =
      (demoAuthConn,
        { demoStore with
          sessions := updateSession demoStore.sessions "S1"
            (fun s => { s with lastUpdated := TimeVal.dayOnly (1000 / msPerDay) }),
          messages := demoStore.messages ++
            [("S1", { messageId := demoStore.nextId, role := "user",
                      text := some "hello",
                      timestamp := TimeVal.dayOnly (1000 / msPerDay),
                      sourceType := "text" })],
          nextId := demoStore.nextId + 1 },
        [.errF "Invalid JSON message format"]) ∧
    listMessages
        { demoStore with
          sessions := updateSession demoStore.sessions "S1"
            (fun s => { s with lastUpdated := TimeVal.dayOnly (1000 / msPerDay) }),
          messages := demoStore.messages ++
            [("S1", { messageId := demoStore.nextId, role := "user",
                      text := some "hello",
                      timestamp := TimeVal.dayOnly (1000 / msPerDay),
                      sourceType := "text" })],
          nextId := demoStore.nextId + 1 } "S1" =
      listMessages demoStore "S1" ++
        [{ messageId := demoStore.nextId, role := "user", text := some "hello",
           timestamp := .dayOnly (1000 / msPerDay), sourceType := "text" }] ∧
    handleMessage demoEnvTtsDown 1000 demoAuthConn demoStore
        { isString := false, startsLbrace := true,
          parsed := some (.textMessage (some "hello")), raw := [9] } =
      (demoAuthConn,
        (audioPath demoEnvTtsDown 1000 demoAuthConn
          { demoStore with
            sessions := updateSession demoStore.sessions "S1"
              (fun s => { s with lastUpdated := TimeVal.dayOnly (1000 / msPerDay) }),
            messages := demoStore.messages ++
              [("S1", { messageId := demoStore.nextId, role := "user",
                        text := some "hello",
                        timestamp := TimeVal.dayOnly (1000 / msPerDay),
                        sourceType := "text" })],
            nextId := demoStore.nextId + 1 } [9]).1,
        (audioPath demoEnvTtsDown 1000 demoAuthConn
          { demoStore with
            sessions := updateSession demoStore.sessions "S1"
              (fun s => { s with lastUpdated := TimeVal.dayOnly (1000 / msPerDay) }),
            messages := demoStore.messages ++
              [("S1", { messageId := demoStore.nextId, role := "user",
                        text := some "hello",
                        timestamp := TimeVal.dayOnly (1000 / msPerDay),
                        sourceType := "text" })],
            nextId := demoStore.nextId + 1 } [9]).2) ∧
    handleMessage demoEnvTtsDown 1000 demoAuthConn demoStore
        (audioFrame [1, 2, 3]) =
      (demoAuthConn,
        { demoStore with
          logs := demoStore.logs ++ [("what time is it", "alice")] },
        [.plainFail "tts down"]) ∧
    listMessages
        { demoStore with
          logs := demoStore.logs ++ [("what time is it", "alice")] } "S1" =
      listMessages demoStore "S1" :=
  c7_tts_failure demoEnvTtsDown 1000 demoAuthConn demoStore "hello" "S1"
    "answer to hello" "tts down"
    { userId := "alice", title := "T", createdAt := .iso 500, lastUpdated := .iso 500 }
    [9] [1, 2, 3] "what time is it" "answer to what time is it" "tts down"
    (by decide) (by decide) rfl (by decide) rfl rfl rfl rfl rfl rfl
    (by decide) (by decide) rfl rfl

/-- C7 counterexample: at a concrete TTS failure on a string-framed text
turn the client receives a single Invalid JSON message format error frame
(no speech_response, no audio_content) and the session holds only the
user message of the turn. -/
theorem c7_counterexample :
    (handleMessage demoEnvTtsDown 1000 demoAuthConn demoStore
        (textFrame "hello")).2.2 = [.errF "Invalid JSON message format"] ∧
    listMessages (handleMessage demoEnvTtsDown 1000 demoAuthConn demoStore
        (textFrame "hello")).2.1 "S1" =
      [{ messageId := 0, role := "user", text := some "hello",
         timestamp := .dayOnly 0, sourceType := "text" }] := by
  exact ⟨rfl, rfl⟩

/-- The store after POST /api/chat/new at instant 1000 (day zero). -/
def c8st0 : Store :=
  (startConversation demoEnv c9req 1000
    { sessions := [], messages := [], logs := [], nextId := 0 }).2

/-- c8st0 after a websocket message append at instant 2000, later the
same calendar day. -/
def c8stA : Store :=
  match storeMessage demoEnv c8st0 "chat0" "user" (some "hello") "alice"
      "text" 2000 with
  | .ok (st, _) => st
  | .error _ => c8st0

/-- c8stA after a second append at instant 50000000, still day zero. -/
def c8stB : Store :=
  match storeMessage demoEnv c8stA "chat0" "assistant" (some "hi") "alice"
      "text" 50000000 with
  | .ok (st, _) => st
  | .error _ => c8stA

/-- C8: session creation writes full-resolution ISO timestamps with
createdAt equal to lastUpdated, but storeMessage overwrites lastUpdated
with a day-resolution toDateString value: after an append at instant 2000
the session created at instant 1000 has lastUpdated denoting instant 0,
below createdAt, and a second append later the same day changes the
message list while leaving lastUpdated unchanged, so appends do not
strictly advance it. -/
theorem c8_day_resolution_bug :
    (findSession c8st0.sessions "chat0").map SessionDoc.createdAt =
      some (.iso 1000) ∧
    (findSession c8st0.sessions "chat0").map SessionDoc.lastUpdated =
      some (.iso 1000) ∧
    (findSession c8stA.sessions "chat0").map SessionDoc.lastUpdated =
      some (.dayOnly 0) ∧
    (TimeVal.dayOnly 0).asMs < (TimeVal.iso 1000).asMs ∧
    listMessages c8stB "chat0" ≠ listMessages c8stA "chat0" ∧
    (findSession c8stB.sessions "chat0").map SessionDoc.lastUpdated =
      (findSession c8stA.sessions "chat0").map SessionDoc.lastUpdated := by
  exact ⟨rfl, rfl, rfl, by decide, by decide, rfl⟩

/-- C9 (amended): an authenticated POST /api/chat/new creates the session
with createdAt equal to lastUpdated (a single ISO instant), seeds exactly
one assistant message with sourceType text whose text is the literal
string How can i help you today ? (lowercase i, space before the question
mark), and answers 201 with success and the chatId, title, createdAt and
lastUpdated data; a request without an authorization header and one whose
token fails verification are answered 401, and a store-backend failure is
answered 500, each leaving the store unchanged. -/
theorem c9_start_conversation (env envBad envDown : Env) (h : String)
    (u : User) (title titleB : Option String) (now nowB : Nat) (st stB : Store)
    (hh : strStartsWith h "Bearer" = true)
    (hv : env.verify ((jsSplit h ' ').getD 1 "") = some u)
    (hdb : env.dbOk = true)
    (hvBad : envBad.verify ((jsSplit h ' ').getD 1 "") = none)
    (hvDown : envDown.verify ((jsSplit h ' ').getD 1 "") = some u)
    (hdbDown : envDown.dbOk = false) :
    startConversation env { authHeader := some h, title := title } now st =
      (.ok201 { chatId := freshId st, title := title.getD "New Chat",
                createdAt := .iso now, lastUpdated := .iso now },
       { st with
         sessions := st.sessions ++
           [(freshId st, { userId := u.uid, title := title.getD "New Chat",
                           createdAt := .iso now, lastUpdated := .iso now })],
         messages := st.messages ++
           [(freshId st, { messageId := st.nextId + 1, role := "assistant",
                           text := some "How can i help you today ?",
                           timestamp := .iso now, sourceType := "text" })],
         nextId := st.nextId + 2 }) ∧
    startConversation env { authHeader := none, title := titleB } nowB stB =
      (.err401 "Unauthorized missing or invalid authorization header", stB) ∧
    startConversation envBad { authHeader := some h, title := title } now st =
      (.err401 "unauthorized invalid token", st) ∧
    startConversation envDown { authHeader := some h, title := title } now st =
      (.err500 "Failed to start conversation", st) := by
  have hv2 : env.verify ((jsSplit h ' ')[1]?.getD "") = some u := by
    simpa [List.getD] using hv
  have hvBad2 : envBad.verify ((jsSplit h ' ')[1]?.getD "") = none := by
    simpa [List.getD] using hvBad
  have hvDown2 : envDown.verify ((jsSplit h ' ')[1]?.getD "") = some u := by
    simpa [List.getD] using hvDown
  refine ⟨?_, rfl, ?_, ?_⟩
  · simp [startConversation, hh, hv2, hdb, freshId]
  · simp [startConversation, hh, hvBad2]
  · simp [startConversation, hh, hvDown2, hdbDown]

/-- C9 witness: the endpoint at a concrete verifier and store. -/
theorem c9_witness :
    startConversation demoEnv c9req 1000 demoStore =
      (.ok201 { chatId := freshId demoStore, title := (some "T").getD "New Chat",
                createdAt := .iso 1000, lastUpdated := .iso 1000 },
       { demoStore with
         sessions := demoStore.sessions ++
           [(freshId demoStore,
             { userId := aliceUser.uid, title := (some "T").getD "New Chat",
               createdAt := .iso 1000, lastUpdated := .iso 1000 })],
         messages := demoStore.messages ++
           [(freshId demoStore,
             { messageId := demoStore.nextId + 1, role := "assistant",
               text := some "How can i help you today ?",
               timestamp := .iso 1000, sourceType := "text" })],
         nextId := demoStore.nextId + 2 }) ∧
    startConversation demoEnv { authHeader := none, title := none } 5 demoStore =
      (.err401 "Unauthorized missing or invalid authorization header",
        demoStore) ∧
    startConversation demoEnvNoVerify c9req 1000 demoStore =
      (.err401 "unauthorized invalid token", demoStore) ∧
    startConversation demoEnvDbDown c9req 1000 demoStore =
      (.err500 "Failed to start conversation", demoStore) :=
  c9_start_conversation demoEnv demoEnvNoVerify demoEnvDbDown "Bearer tok-alice"
    aliceUser (some "T") none 1000 5 demoStore demoStore
    (by decide) rfl rfl rfl rfl rfl

/-- C9 counterexample: the seeded assistant message text produced by the
endpoint is the literal How can i help you today ?, which differs from
the text How can I help you today? required by the claim. -/
theorem c9_counterexample :
    ((startConversation demoEnv c9req 1000
        { sessions := [], messages := [], logs := [], nextId := 0 }).2.messages.map
      (fun p => p.2.text)) = [some "How can i help you today ?"] ∧
    ("How can i help you today ?" : String) ≠ "How can I help you today?" := by
  exact ⟨rfl, by decide⟩

/-- A successful resolver call always carries metadata computed from the
lowercased query alone. -/
theorem queryContextualData_ok (env : Env) (q uid : String) (r : QueryResult)
    (h : queryContextualData env q uid = .ok r) :
    r.metadata = { intent := determineIntent (jsToLower q), confidence := 0.85 } := by
  unfold queryContextualData at h
  split at h
  · split at h
    · exact Except.noConfusion h
    · injection h with h
      subst h
      rfl
  · exact Except.noConfusion h

/-- C10: whenever the resolver call succeeds, the returned metadata is a
deterministic pure function of the lowercased query alone: the answer
backend and the userId cannot influence it, confidence is exactly 0.85,
and intent is chosen by the first matching rule of the fixed priority
order weather, time, account or profile, help, unknown. -/
theorem c10_resolver_metadata (env1 env2 : Env) (q uid1 uid2 : String)
    (r1 r2 : QueryResult)
    (h1 : queryContextualData env1 q uid1 = .ok r1)
    (h2 : queryContextualData env2 q uid2 = .ok r2) :
    r1.metadata = r2.metadata ∧
    r1.metadata.confidence = 0.85 ∧
    r1.metadata.intent = determineIntent (jsToLower q) ∧
    (strContains (jsToLower q) "weather" = true →
      r1.metadata.intent = "WEATHER_QUERY") ∧
    (strContains (jsToLower q) "weather" = false →
      strContains (jsToLower q) "time" = true →
      r1.metadata.intent = "TIME_QUERY") ∧
    (strContains (jsToLower q) "weather" = false →
      strContains (jsToLower q) "time" = false →
      (strContains (jsToLower q) "account" ||
        strContains (jsToLower q) "profile") = true →
      r1.metadata.intent = "ACCOUNT_QUERY") ∧
    (strContains (jsToLower q) "weather" = false →
      strContains (jsToLower q) "time" = false →
      (strContains (jsToLower q) "account" ||
        strContains (jsToLower q) "profile") = false →
      strContains (jsToLower q) "help" = true →
      r1.metadata.intent = "HELP_REQUEST") ∧
    (strContains (jsToLower q) "weather" = false →
      strContains (jsToLower q) "time" = false →
      (strContains (jsToLower q) "account" ||
        strContains (jsToLower q) "profile") = false →
      strContains (jsToLower q) "help" = false →
      r1.metadata.intent = "UNKNOWN") := by
  have m1 := queryContextualData_ok env1 q uid1 r1 h1
  have m2 := queryContextualData_ok env2 q uid2 r2 h2
  rw [m1, m2]
  refine ⟨rfl, rfl, rfl, ?_, ?_, ?_, ?_, ?_⟩
  · intro hw
    simp [determineIntent, hw]
  · intro hw htm
    simp [determineIntent, hw, htm]
  · intro hw htm hac
    simp [determineIntent, hw, htm, hac]
  · intro hw htm hac hh
    simp only [Bool.or_eq_false_iff] at hac
    simp [determineIntent, hw, htm, hac.1, hac.2, hh]
  · intro hw htm hac hh
    simp only [Bool.or_eq_false_iff] at hac
    simp [determineIntent, hw, htm, hac.1, hac.2, hh]

/-- C10 witness: the resolver metadata at a concrete time query, with two
different answer backends and userIds. -/
theorem c10_witness :
    ({ answer := "answer to what time is it",
       metadata := { intent := "TIME_QUERY", confidence := 0.85 } } :
        QueryResult).metadata =
      ({ answer := "flip what time is it",
         metadata := { intent := "TIME_QUERY", confidence := 0.85 } } :
          QueryResult).metadata ∧
    ({ answer := "answer to what time is it",
       metadata := { intent := "TIME_QUERY", confidence := 0.85 } } :
        QueryResult).metadata.confidence = 0.85 ∧
    ({ answer := "answer to what time is it",
       metadata := { intent := "TIME_QUERY", confidence := 0.85 } } :
        QueryResult).metadata.intent =
      determineIntent (jsToLower "What TIME is it") ∧
    (strContains (jsToLower "What TIME is it") "weather" = true →
      ({ answer := "answer to what time is it",
         metadata := { intent := "TIME_QUERY", confidence := 0.85 } } :
          QueryResult).metadata.intent = "WEATHER_QUERY") ∧
    (strContains (jsToLower "What TIME is it") "weather" = false →
      strContains (jsToLower "What TIME is it") "time" = true →
      ({ answer := "answer to what time is it",
         metadata := { intent := "TIME_QUERY", confidence := 0.85 } } :
          QueryResult).metadata.intent = "TIME_QUERY") ∧
    (strContains (jsToLower "What TIME is it") "weather" = false →
      strContains (jsToLower "What TIME is it") "time" = false →
      (strContains (jsToLower "What TIME is it") "account" ||
        strContains (jsToLower "What TIME is it") "profile") = true →
      ({ answer := "answer to what time is it",
         metadata := { intent := "TIME_QUERY", confidence := 0.85 } } :
          QueryResult).metadata.intent = "ACCOUNT_QUERY") ∧
    (strContains (jsToLower "What TIME is it") "weather" = false →
      strContains (jsToLower "What TIME is it") "time" = false →
      (strContains (jsToLower "What TIME is it") "account" ||
        strContains (jsToLower "What TIME is it") "profile") = false →
      strContains (jsToLower "What TIME is it") "help" = true →
      ({ answer := "answer to what time is it",
         metadata := { intent := "TIME_QUERY", confidence := 0.85 } } :
          QueryResult).metadata.intent = "HELP_REQUEST") ∧
    (strContains (jsToLower "What TIME is it") "weather" = false →
      strContains (jsToLower "What TIME is it") "time" = false →
      (strContains (jsToLower "What TIME is it") "account" ||
        strContains (jsToLower "What TIME is it") "profile") = false →
      strContains (jsToLower "What TIME is it") "help" = false →
      ({ answer := "answer to what time is it",
         metadata := { intent := "TIME_QUERY", confidence := 0.85 } } :
          QueryResult).metadata.intent = "UNKNOWN") :=
  c10_resolver_metadata demoEnv
    { demoEnv with flask := fun _ q => .ok ("flip " ++ q) }
    "What TIME is it" "u" "v"
    { answer := "answer to what time is it",
      metadata := { intent := "TIME_QUERY", confidence := 0.85 } }
    { answer := "flip what time is it",
      metadata := { intent := "TIME_QUERY", confidence := 0.85 } }
    rfl rfl

end Gateway
